import Mathlib

/-!
Verification of the novel_assistant governance core against its
natural-language specification.

The definitions below are a shallow embedding of the Python sources:

* `src/governance/chapter_locker.py`  (ChapterLocker)
* `src/governance/canon_manager.py`   (CanonManager)
* `src/services/research_ingest.py`   (ResearchIngestService)
* `src/services/research_digestor.py` (ResearchDigestor)
* `src/services/reference_loader.py`  (ReferenceLoader)

File-system side effects are modelled as explicit state passing:
JSON dictionaries become association lists with Python `dict`
assignment semantics (update in place if the key exists, append
otherwise), the durable `unlock_log.json` file becomes a list value
threaded through `unlock`, and raising exceptions becomes `Except`.
Wall-clock timestamps (`datetime.now()`) and file-system probes are
passed in as explicit environment parameters.
-/

namespace NovelAssistant

/-- Python `dict` lookup `m.get(k)` / `k in m` over an association list. -/
def dictGet {κ α : Type} [BEq κ] (m : List (κ × α)) (k : κ) : Option α :=
  (m.find? (fun p => p.1 == k)).map (fun p => p.2)

/-- Python `dict` assignment `m[k] = v`: overwrite in place when the key is
present, append otherwise (CPython preserves insertion order this way). -/
def dictSet {κ α : Type} [BEq κ] (m : List (κ × α)) (k : κ) (v : α) : List (κ × α) :=
  if (m.find? (fun p => p.1 == k)).isSome then
    m.map (fun p => if p.1 == k then (k, v) else p)
  else
    m ++ [(k, v)]

/-! ## chapter_locker.py -/

/-- `ChapterState` enum from chapter_locker.py (canon_manager.py declares an
identical copy; one Lean type serves both). -/
inductive ChapterState : Type
  | draft
  | revised
  | canonLocked
  | published
deriving DecidableEq, Repr

/-- `ChapterState.value`: the string stored in JSON for each enum member. -/
def ChapterState.value : ChapterState → String
  | .draft => "draft"
  | .revised => "revised"
  | .canonLocked => "canon_locked"
  | .published => "published"

/-- Dataclass `ChapterLock` from chapter_locker.py.  `state` is kept as the
enum (the Python field holds the corresponding `.value` string);
`last_modified` is `Option` because `_get_chapter_info` yields `None` for a
missing chapter file. -/
structure ChapterLock : Type where
  chapterNum : Nat
  state : ChapterState
  lockedAt : Option String
  lockedBy : Option String
  lockReason : Option String
  lastModified : Option String
  wordCount : Nat
  revisionCount : Nat
deriving DecidableEq, Repr

/-- Environment for `ChapterLocker`: the wall clock and the result of
`_get_chapter_info` (modification time and word count per chapter). -/
structure LockerEnv : Type where
  now : String
  fileModified : Nat → Option String
  fileWords : Nat → Nat

/-- The in-memory `self.locks` dictionary. -/
abbrev Locks := List (Nat × ChapterLock)

/-- `ChapterLocker.get_state`: stored lock if present, else a default DRAFT
record built from `_get_chapter_info`. -/
def get_state (env : LockerEnv) (locks : Locks) (chapterNum : Nat) : ChapterLock :=
  match dictGet locks chapterNum with
  | some lock => lock
  | none =>
      { chapterNum := chapterNum
        state := ChapterState.draft
        lockedAt := none
        lockedBy := none
        lockReason := none
        lastModified := env.fileModified chapterNum
        wordCount := env.fileWords chapterNum
        revisionCount := 0 }

/-- The `valid_transitions` table inside `ChapterLocker.set_state`. -/
def validTransitions : ChapterState → List ChapterState
  | .draft => [ChapterState.revised, ChapterState.canonLocked]
  | .revised => [ChapterState.draft, ChapterState.canonLocked, ChapterState.published]
  | .canonLocked => []
  | .published => []

/-- The distinct `ValueError` raise sites of `ChapterLocker.set_state` and
`ChapterLocker.unlock`. -/
inductive LockError : Type
  | canonLockedUseUnlock (chapterNum : Nat)
  | publishedImmutable (chapterNum : Nat)
  | invalidTransition (fromState toState : ChapterState)
  | notLocked (chapterNum : Nat) (state : ChapterState)
  | shortReason
deriving DecidableEq, Repr

/-- `ChapterLocker.set_state`: validate the transition against the table,
then build and store the new `ChapterLock` record.  The Python defaults
`reason=""` and `by="author"` are passed explicitly here. -/
def set_state (env : LockerEnv) (locks : Locks) (chapterNum : Nat)
    (newState : ChapterState) (reason : String) (by_ : String) :
    Except LockError (Locks × ChapterLock) :=
  let current := get_state env locks chapterNum
  if newState ∈ validTransitions current.state then
    let lock : ChapterLock :=
      { chapterNum := chapterNum
        state := newState
        lockedAt :=
          if newState = ChapterState.canonLocked ∨ newState = ChapterState.published
          then some env.now else none
        lockedBy :=
          if newState = ChapterState.canonLocked ∨ newState = ChapterState.published
          then some by_ else none
        lockReason :=
          if newState = ChapterState.canonLocked ∨ newState = ChapterState.published
          then some reason else none
        lastModified := env.fileModified chapterNum
        wordCount := env.fileWords chapterNum
        revisionCount :=
          current.revisionCount + (if newState = ChapterState.revised then 1 else 0) }
    Except.ok (dictSet locks chapterNum lock, lock)
  else if current.state = ChapterState.canonLocked then
    Except.error (LockError.canonLockedUseUnlock chapterNum)
  else if current.state = ChapterState.published then
    Except.error (LockError.publishedImmutable chapterNum)
  else
    Except.error (LockError.invalidTransition current.state newState)

/-- One entry of the durable `unlock_log.json` file. -/
structure UnlockLogEntry : Type where
  chapter : Nat
  unlockedAt : String
  unlockedBy : String
  reason : String
  previousLockDate : Option String
deriving DecidableEq, Repr

/-- `ChapterLocker.unlock`.  The first component of the result is the
`unlock_log.json` contents after the call: the Python writes that file
before attempting the state transition, so the log reflects the append even
when the call ends by raising. -/
def unlock (env : LockerEnv) (locks : Locks) (unlockLog : List UnlockLogEntry)
    (chapterNum : Nat) (reason : String) (by_ : String) :
    List UnlockLogEntry × Except LockError (Locks × ChapterLock) :=
  let current := get_state env locks chapterNum
  if current.state ≠ ChapterState.canonLocked then
    (unlockLog, Except.error (LockError.notLocked chapterNum current.state))
  else if reason = "" ∨ reason.length < 10 then
    (unlockLog, Except.error LockError.shortReason)
  else
    let entry : UnlockLogEntry :=
      { chapter := chapterNum
        unlockedAt := env.now
        unlockedBy := by_
        reason := reason
        previousLockDate := current.lockedAt }
    (unlockLog ++ [entry],
      set_state env locks chapterNum ChapterState.revised ("Unlocked: " ++ reason) by_)

/-! ## canon_manager.py : fact store -/

/-- One entry of a fact's in-record `history` list. -/
structure HistEntry : Type where
  oldValue : String
  changed : String
  reason : String
deriving DecidableEq, Repr

/-- A fact record as stored in `canon_version.json` under a category. -/
structure Fact : Type where
  value : String
  sourceChapter : String
  created : String
  updated : String
  history : List HistEntry
deriving DecidableEq, Repr

/-- The semantic version `major.minor.patch` kept in `self.canon["version"]`.
The Python stores it as the string `f"{major}.{minor}.{patch}"` and
`_bump_version` re-parses it with `split(".")`; the round trip is the
identity, so the parsed triple is the state here. -/
structure Version : Type where
  major : Nat
  minor : Nat
  patch : Nat
deriving DecidableEq, Repr

/-- Strict ordering of versions: major, then minor, then patch. -/
def Version.ltV (a b : Version) : Prop :=
  a.major < b.major ∨
    (a.major = b.major ∧
      (a.minor < b.minor ∨ (a.minor = b.minor ∧ a.patch < b.patch)))

/-- The fact-bearing part of the `self.canon` dictionary: the version plus
the per-category fact maps.  (`last_update`, `novel` and the changelog file
are bookkeeping the claims do not touch.) -/
structure Canon : Type where
  version : Version
  cats : List (String × List (String × Fact))
deriving DecidableEq, Repr

/-- `CanonManager._bump_version` after parsing the version string. -/
def bump_version (v : Version) (bumpType : String) : Version :=
  if bumpType = "major" then
    { major := v.major + 1, minor := 0, patch := 0 }
  else if bumpType = "minor" then
    { major := v.major, minor := v.minor + 1, patch := 0 }
  else
    { major := v.major, minor := v.minor, patch := v.patch + 1 }

/-- `CanonManager._create_default_canon`, restricted to the five
fact-bearing categories (all created empty) and the version `"1.0.0"`. -/
def default_canon : Canon :=
  { version := { major := 1, minor := 0, patch := 0 }
    cats :=
      [("characters", []), ("timeline", []), ("locations", []),
       ("objects", []), ("facts", [])] }

/-- Fact lookup `self.canon[category][fact_key]` (used by `get_fact` and by
the guards of `update_fact`). -/
def lookupFact (c : Canon) (category factKey : String) : Option Fact :=
  match dictGet c.cats category with
  | none => none
  | some facts => dictGet facts factKey

/-- `CanonManager.add_fact` (Python default `category="facts"` passed
explicitly).  Creates the category when missing, then stores a fresh fact
with empty history under the key and bumps the patch version.  There is no
duplicate-key guard: an existing fact under the key is overwritten. -/
def add_fact (now : String) (c : Canon) (factKey factValue sourceChapter category : String) :
    Canon × Fact :=
  let cats0 :=
    if (dictGet c.cats category).isNone then dictSet c.cats category [] else c.cats
  let fact : Fact :=
    { value := factValue
      sourceChapter := sourceChapter
      created := now
      updated := now
      history := [] }
  let facts := (dictGet cats0 category).getD []
  let cats1 := dictSet cats0 category (dictSet facts factKey fact)
  ({ version := bump_version c.version "patch", cats := cats1 }, fact)

/-- `CanonManager.update_fact`: `KeyError` when the category or key is
absent; otherwise appends to the fact's history, replaces its value, and
bumps the minor version. -/
def update_fact (now : String) (c : Canon) (factKey newValue reason : String)
    (_affectedChapters : List String) (category : String) :
    Except String (Canon × Fact) :=
  match dictGet c.cats category with
  | none => Except.error ("Fact not found: " ++ category ++ "/" ++ factKey)
  | some facts =>
      match dictGet facts factKey with
      | none => Except.error ("Fact not found: " ++ category ++ "/" ++ factKey)
      | some fact =>
          let fact1 : Fact :=
            { fact with
                history := fact.history ++ [{ oldValue := fact.value, changed := now, reason := reason }]
                value := newValue
                updated := now }
          Except.ok
            ({ version := bump_version c.version "minor"
               cats := dictSet c.cats category (dictSet facts factKey fact1) },
             fact1)

/-! String helpers for `validate_against_canon`, translated from the Python
expressions they implement rather than taken from the Lean library, so that
they reduce inside the kernel. -/

/-- Python `str.lower()` (ASCII; the inputs in play are ASCII). -/
def pyLower (s : String) : String :=
  String.mk (s.data.map Char.toLower)

/-- Python `.replace("_", " ")` for the single-character pattern used in
`validate_against_canon`. -/
def underscoresToSpaces (s : String) : String :=
  String.mk (s.data.map (fun c => if c = '_' then ' ' else c))

/-- `hasPrefixL pat s`: `pat` is a prefix of `s` (character lists). -/
def hasPrefixL : List Char → List Char → Bool
  | [], _ => true
  | _ :: _, [] => false
  | p :: ps, c :: cs => p == c && hasPrefixL ps cs

/-- `containsSub s pat`: `pat` occurs contiguously in `s`. -/
def containsSub (s : List Char) (pat : List Char) : Bool :=
  hasPrefixL pat s ||
    (match s with
     | [] => false
     | _ :: cs => containsSub cs pat)

/-- Python substring test `pat in s`. -/
def strContains (s pat : String) : Bool :=
  containsSub s.data pat.data

/-- One element of the list returned by `validate_against_canon`. -/
structure Finding : Type where
  ftype : String
  category : String
  factKey : String
  canonValue : String
  severity : String
  message : String
deriving DecidableEq, Repr

/-- The fixed category iteration order of `validate_against_canon`. -/
def validationCategories : List String :=
  ["characters", "timeline", "locations", "objects", "facts"]

/-- Inner loop of `validate_against_canon` over one category's facts. -/
def validateFacts (textLower : String) (category : String)
    (facts : List (String × Fact)) : List Finding :=
  facts.foldl
    (fun issues p =>
      let factKey := p.1
      let value := p.2.value
      if strContains textLower (underscoresToSpaces (pyLower factKey)) then
        if strContains textLower (pyLower value) then issues
        else
          issues ++
            [{ ftype := "potential_inconsistency"
               category := category
               factKey := factKey
               canonValue := value
               severity := "warning"
               message :=
                 "Canon fact '" ++ factKey ++ "' referenced but value '" ++
                   value ++ "' not found" }]
      else issues)
    []

/-- `CanonManager.validate_against_canon`. -/
def validate_against_canon (c : Canon) (chapterText : String) : List Finding :=
  let textLower := pyLower chapterText
  validationCategories.foldl
    (fun issues category =>
      issues ++ validateFacts textLower category ((dictGet c.cats category).getD []))
    []

/-! ## canon_manager.py : chapter states -/

/-- One entry of a `ChapterRecord`'s in-record `unlock_history`. -/
structure UnlockHistEntry : Type where
  fromState : String
  toState : String
  reason : String
  timestamp : String
deriving DecidableEq, Repr

/-- A chapter record as stored in `chapter_states.json`; `state` is kept as
the raw string exactly as the Python dictionary does. -/
structure ChapterRecord : Type where
  name : String
  state : String
  lastModified : String
  lockReason : Option String
  unlockHistory : List UnlockHistEntry
deriving DecidableEq, Repr

/-- The in-memory `self.chapter_states` dictionary. -/
abbrev ChapterStates := List (String × ChapterRecord)

/-- `CanonManager.set_chapter_state`.  Note: unlike
`ChapterLocker.set_state`, this performs no transition-table validation; the
only raise site is a missing reason when leaving CANON_LOCKED or PUBLISHED
for DRAFT or REVISED.  `reason` is `Option String` (Python `Optional[str]`,
default `None`); the Python truthiness test `if not reason` fails for both
`None` and `""`. -/
def set_chapter_state (now : String) (states : ChapterStates)
    (chapterName : String) (state : ChapterState) (reason : Option String) :
    Except String (ChapterStates × ChapterRecord) :=
  let states1 :=
    if (dictGet states chapterName).isSome then states
    else
      states ++
        [(chapterName,
          { name := chapterName
            state := ChapterState.draft.value
            lastModified := now
            lockReason := none
            unlockHistory := [] })]
  let record := (dictGet states1 chapterName).getD
    { name := chapterName, state := ChapterState.draft.value
      lastModified := now, lockReason := none, unlockHistory := [] }
  let oldState := record.state
  let unlocking :=
    (oldState = ChapterState.canonLocked.value ∨ oldState = ChapterState.published.value) ∧
      (state = ChapterState.draft ∨ state = ChapterState.revised)
  if unlocking ∧ (reason = none ∨ reason = some "") then
    Except.error ("Reason required to unlock from " ++ oldState)
  else
    let record1 :=
      if unlocking then
        { record with
            unlockHistory :=
              record.unlockHistory ++
                [{ fromState := oldState, toState := state.value
                   reason := reason.getD "", timestamp := now }] }
      else record
    let record2 := { record1 with state := state.value, lastModified := now }
    let record3 :=
      if state = ChapterState.canonLocked ∨ state = ChapterState.published then
        { record2 with lockReason := reason }
      else record2
    Except.ok (dictSet states1 chapterName record3, record3)

/-! ## research_ingest.py and research_digestor.py -/

/-- The `ResearchClass` enum (declared identically in research_ingest.py
and research_digestor.py). -/
inductive ResearchClass : Type
  | canon
  | context
  | artifact
  | craft
deriving DecidableEq, Repr

/-- `ResearchClass.value`. -/
def ResearchClass.value : ResearchClass → String
  | .canon => "canon"
  | .context => "context"
  | .artifact => "artifact"
  | .craft => "craft"

/-- Python `ResearchClass(s)`: parse a stored string back into the enum,
`ValueError` (modelled as `none`) for anything else, in particular for
`"unclassified"`. -/
def parseResearchClass (s : String) : Option ResearchClass :=
  if s = "canon" then some ResearchClass.canon
  else if s = "context" then some ResearchClass.context
  else if s = "artifact" then some ResearchClass.artifact
  else if s = "craft" then some ResearchClass.craft
  else none

/-- `ResearchIngestService.CLASS_PATHS`. -/
def classPath : ResearchClass → String
  | .canon => "reference"
  | .context => "research/context"
  | .artifact => "research/artifacts"
  | .craft => "research/craft"

/-- Dataclass `ResearchDocument` from research_ingest.py
(`classification_confidence` is a float the governance logic never reads;
it is carried opaquely as its `repr` string to keep equality decidable). -/
structure ResearchDocument : Type where
  id : String
  originalFilename : String
  researchClass : String
  subtype : Option String
  uploadDate : String
  fileHash : String
  status : String
  rawPath : String
  classificationConfidence : Option String
  digestPath : Option String
  finalPath : Option String
  notes : String
  approvedBy : Option String
  approvedDate : Option String
  promotionTarget : Option String
deriving DecidableEq, Repr

/-- The in-memory `self.registry` dictionary of `ResearchIngestService`. -/
abbrev Registry := List (String × ResearchDocument)

/-- Environment for `ResearchIngestService.approve_and_place`: the wall
clock, the application root and a probe for `Path(...).exists()`. -/
structure IngestEnv : Type where
  now : String
  baseDir : String
  fileExists : String → Bool

/-- The raise sites of `ResearchIngestService.approve_and_place`. -/
inductive IngestError : Type
  | notFound (docId : String)
  | mustClassify
  | invalidClass (s : String)
deriving DecidableEq, Repr

/-- `ResearchIngestService.approve_and_place`: `KeyError` for an unknown
id, `ValueError` unless `status ∈ {"classified", "distilled"}`, then the
destination directory is computed from the parsed research class, the
digest (when present on disk) is copied there, and the record becomes
`approved`.  Returns the updated registry and `doc.final_path or ""`. -/
def approve_and_place (env : IngestEnv) (registry : Registry)
    (docId approvedBy : String) (promotionTarget : Option String) :
    Except IngestError (Registry × String) :=
  match dictGet registry docId with
  | none => Except.error (IngestError.notFound docId)
  | some doc =>
      if doc.status ≠ "classified" ∧ doc.status ≠ "distilled" then
        Except.error IngestError.mustClassify
      else
        match parseResearchClass doc.researchClass with
        | none => Except.error (IngestError.invalidClass doc.researchClass)
        | some rc =>
            let destDir :=
              if rc = ResearchClass.canon then
                match promotionTarget with
                | some t => env.baseDir ++ "/reference/" ++ t
                | none => env.baseDir ++ "/research/canon_staging"
              else
                let b := env.baseDir ++ "/" ++ classPath rc
                match doc.subtype with
                | some st => b ++ "/" ++ st
                | none => b
            let doc1 :=
              match doc.digestPath with
              | some dp =>
                  if dp ≠ "" ∧ env.fileExists dp then
                    { doc with finalPath := some (destDir ++ "/" ++ doc.id ++ "_digest.md") }
                  else doc
              | none => doc
            let doc2 :=
              { doc1 with
                  status := "approved"
                  approvedBy := some approvedBy
                  approvedDate := some env.now
                  promotionTarget := promotionTarget }
            Except.ok (dictSet registry docId doc2, doc2.finalPath.getD "")

/-- A document record of `ResearchDigestor` (a plain dict in the Python;
the `digest` payload and `extracted_facts`, which `promote` neither reads
nor writes beyond copying, are elided). -/
structure DigestDoc : Type where
  id : String
  originalName : String
  storedPath : String
  title : String
  intent : String
  status : String
  researchClass : Option String
  notes : String
  ingested : String
  classified : Option String
  distilled : Option String
  promoted : Option String
  finalPath : Option String
deriving DecidableEq, Repr

/-- The `self.metadata["documents"]` dictionary of `ResearchDigestor`. -/
abbrev DigestDocs := List (String × DigestDoc)

/-- `self.paths[...]` of `ResearchDigestor` for a promotion target. -/
def digestorDestDir (basePath : String) : ResearchClass → String
  | .canon => basePath ++ "/reference"
  | .context => basePath ++ "/research/digests"
  | .artifact => basePath ++ "/research/artifacts"
  | .craft => basePath ++ "/research/craft"

/-- Python `Path(p).name`: the last path component (everything after the
final slash). -/
def pathName (p : String) : String :=
  String.mk ((p.data.reverse.takeWhile (fun c => !(c == '/'))).reverse)

/-- `ResearchDigestor.promote`.  The only guard is existence of the id:
no status check at all, so a record still `unprocessed` is promoted. -/
def promote (now basePath : String) (docs : DigestDocs) (docId : String)
    (target : ResearchClass) : Except String (DigestDocs × DigestDoc) :=
  match dictGet docs docId with
  | none => Except.error ("Document not found: " ++ docId)
  | some record =>
      let destPath := digestorDestDir basePath target ++ "/" ++ pathName record.storedPath
      let record1 :=
        { record with
            researchClass := some target.value
            status := "promoted"
            promoted := some now
            finalPath := some destPath }
      Except.ok (dictSet docs docId record1, record1)

/-! ## reference_loader.py -/

/-- The `LoadingContext` enum. -/
inductive LoadingContext : Type
  | drafting
  | revision
  | consistencyCheck
  | styleCheck
  | sceneDevelopment
  | fullContext
deriving DecidableEq, Repr

/-- `ReferenceLoader.CONTEXT_RULES`: which research classes are loaded in
each context. -/
def contextRules : LoadingContext → ResearchClass → Bool
  | .drafting, .canon => true
  | .drafting, .context => true
  | .drafting, .artifact => false
  | .drafting, .craft => false
  | .revision, .canon => true
  | .revision, .context => false
  | .revision, .artifact => false
  | .revision, .craft => true
  | .consistencyCheck, .canon => true
  | .consistencyCheck, .context => true
  | .consistencyCheck, .artifact => false
  | .consistencyCheck, .craft => false
  | .styleCheck, .canon => false
  | .styleCheck, .context => false
  | .styleCheck, .artifact => false
  | .styleCheck, .craft => true
  | .sceneDevelopment, .canon => true
  | .sceneDevelopment, .context => true
  | .sceneDevelopment, .artifact => true
  | .sceneDevelopment, .craft => false
  | .fullContext, _ => true

/-- `ReferenceLoader.CLASS_HEADERS`. -/
def classHeader : ResearchClass → String
  | .canon =>
      "\n# CANON REFERENCE (Authoritative)\nThe following facts are ESTABLISHED in the novel. They cannot be contradicted.\nUse these as constraints. If something conflicts with canon, canon wins.\n"
  | .context =>
      "\n# CONTEXTUAL BACKGROUND (Non-Authoritative)\nThe following provides historical/cultural context. Use for plausibility checks.\nNEVER narrate this information directly to the reader.\nThis is pressure, not content.\n"
  | .artifact =>
      "\n# ARTIFACTS (Scene Triggers)\nThe following are in-world documents that can trigger scenes or memories.\nExperience these through character POV. Meaning comes from contrast, not exposition.\nNEVER summarize these generically.\n"
  | .craft =>
      "\n# CRAFT GUIDANCE (Editorial Only)\nThe following guides HOW to write, not WHAT to write.\nApply during revision. Never inject into narrative.\nThis is scaffolding, not story material.\n"

/-- The material the four private `_load_*` methods would read from disk,
abstracted over any file-system state. -/
structure LoaderEnv : Type where
  loadCanon : String
  loadContext : String
  loadArtifacts : String
  loadCraft : String

/-- Dataclass `LoadedReference`. -/
structure LoadedReference : Type where
  canon : String
  context : String
  artifacts : String
  craft : String
  totalTokens : Nat
  sourcesLoaded : List String
deriving DecidableEq, Repr

/-- `ReferenceLoader._estimate_tokens`: `len(text) // 4`. -/
def estimateTokens (text : String) : Nat :=
  text.length / 4

/-- Python slice `text[:n]` by characters. -/
def pyTake (s : String) (n : Nat) : String :=
  String.mk (s.data.take n)

/-- One truncation block of `load_for_context`: keep the section whole when
its estimate fits the remaining budget, else hard-slice it to
`remaining * 4` characters and exhaust the budget. -/
def truncFit (text : String) (remaining : Nat) : String × Nat :=
  if estimateTokens text ≤ remaining then (text, remaining - estimateTokens text)
  else (pyTake text (remaining * 4), 0)

/-- A truncation block guarded by `if remaining > 0` (the craft and context
blocks): with no budget left the section is dropped entirely. -/
def truncGate (text : String) (remaining : Nat) : String × Nat :=
  if remaining > 0 then truncFit text remaining else ("", remaining)

/-- `ReferenceLoader.load_for_context`: assemble the four class sections
per `CONTEXT_RULES`, prefix non-empty sections with the class header,
record their names in `sources_loaded`, then truncate in the priority
order canon, craft, context, artifacts when over the token budget. -/
def load_for_context (env : LoaderEnv) (ctx : LoadingContext) (maxTokens : Nat) :
    LoadedReference :=
  let canonText0 := if contextRules ctx ResearchClass.canon then env.loadCanon else ""
  let contextText0 := if contextRules ctx ResearchClass.context then env.loadContext else ""
  let artifactsText0 := if contextRules ctx ResearchClass.artifact then env.loadArtifacts else ""
  let craftText0 := if contextRules ctx ResearchClass.craft then env.loadCraft else ""
  let canonText := if canonText0 = "" then "" else classHeader ResearchClass.canon ++ canonText0
  let contextText := if contextText0 = "" then "" else classHeader ResearchClass.context ++ contextText0
  let artifactsText := if artifactsText0 = "" then "" else classHeader ResearchClass.artifact ++ artifactsText0
  let craftText := if craftText0 = "" then "" else classHeader ResearchClass.craft ++ craftText0
  let sources :=
    (if canonText0 = "" then [] else ["canon"]) ++
      (if contextText0 = "" then [] else ["context"]) ++
        (if artifactsText0 = "" then [] else ["artifacts"]) ++
          (if craftText0 = "" then [] else ["craft"])
  let totalTokens :=
    estimateTokens canonText + estimateTokens contextText +
      estimateTokens artifactsText + estimateTokens craftText
  if totalTokens ≤ maxTokens then
    { canon := canonText, context := contextText, artifacts := artifactsText
      craft := craftText, totalTokens := totalTokens, sourcesLoaded := sources }
  else
    let step1 := truncFit canonText maxTokens
    let step2 := truncGate craftText step1.2
    let step3 := truncGate contextText step2.2
    let artifactsFinal :=
      if step3.2 > 0 then pyTake artifactsText (step3.2 * 4) else ""
    { canon := step1.1, context := step3.1, artifacts := artifactsFinal
      craft := step2.1, totalTokens := maxTokens, sourcesLoaded := sources }

/-! ## Concrete fixtures used by witnesses -/

/-- A store whose "facts" category already holds a fact with one history
entry, as left by an earlier `add_fact` plus `update_fact`. -/
def c10base : Canon :=
  { version := { major := 1, minor := 1, patch := 0 }
    cats :=
      [("characters", []), ("timeline", []), ("locations", []), ("objects", []),
       ("facts",
        [("tommy_age",
          { value := "20", sourceChapter := "Chapter 1", created := "T0",
            updated := "T0x",
            history :=
              [{ oldValue := "19", changed := "T0x", reason := "timeline shifted" }] })])] }

/-- A registry entry exactly as `ResearchIngestService.ingest` creates it:
status "intake", class "unclassified". -/
def ingestIntakeDoc : ResearchDocument :=
  { id := "doc_a_20240101"
    originalFilename := "a.txt"
    researchClass := "unclassified"
    subtype := none
    uploadDate := "T0"
    fileHash := "abcd1234abcd1234"
    status := "intake"
    rawPath := "/app/research/intake/doc_a_20240101.txt"
    classificationConfidence := none
    digestPath := none
    finalPath := none
    notes := ""
    approvedBy := none
    approvedDate := none
    promotionTarget := none }

/-- A one-fact store as produced by a single `add_fact` on the default
canon. -/
def c6base : Canon := (add_fact "T0" default_canon "k" "v" "Chapter 1" "facts").1

/-- The concrete result of one successful `update_fact` on `c6base`. -/
def c6res : Canon × Fact :=
  match update_fact "T1" c6base "k" "v2" "better sourcing" [] "facts" with
  | Except.ok p => p
  | Except.error _ =>
      (default_canon,
       { value := "", sourceChapter := "", created := "", updated := "", history := [] })

/-! ## Helper lemmas -/

/-- Reading back the key just written by a Python dict assignment. -/
theorem dictGet_dictSet_self {κ α : Type} [BEq κ] [LawfulBEq κ]
    (m : List (κ × α)) (k : κ) (v : α) :
    dictGet (dictSet m k v) k = some v := by
  unfold dictGet dictSet
  split
  case isTrue h =>
    obtain ⟨p0, hp0⟩ := Option.isSome_iff_exists.mp h
    have hpred0 := List.find?_some hp0
    have hpred : (p0.1 == k) = true := hpred0
    rw [List.find?_map]
    have hfun :
        ((fun p : κ × α => p.1 == k) ∘ fun p => if p.1 == k then (k, v) else p) =
          fun p : κ × α => p.1 == k := by
      funext p
      by_cases hp : (p.1 == k) = true <;> simp [hp]
    rw [hfun, hp0]
    simp [hpred]
  case isFalse h =>
    have h0 : m.find? (fun p => p.1 == k) = none :=
      Option.not_isSome_iff_eq_none.mp h
    rw [List.find?_append, h0]
    simp [List.find?]

/-- Python slice of the empty string. -/
theorem pyTake_empty (n : Nat) : pyTake "" n = "" := by
  have h : ("" : String).data = [] := rfl
  unfold pyTake
  rw [h, List.take_nil]

/-- `lookupFact` as an `Option.bind`, convenient for case analysis. -/
theorem lookupFact_eq_bind (c : Canon) (category factKey : String) :
    lookupFact c category factKey =
      (dictGet c.cats category).bind fun facts => dictGet facts factKey := by
  unfold lookupFact
  cases dictGet c.cats category <;> rfl

/-- Full evaluation of `unlock` on a CANON_LOCKED chapter with an
acceptable reason: the log entry is written, then the internal
`set_state(..., REVISED)` fails because `validTransitions` gives
CANON_LOCKED no outbound edges. -/
theorem unlock_locked_goodreason_eval
    (env : LockerEnv) (locks : Locks) (unlockLog : List UnlockLogEntry)
    (chapterNum : Nat) (reason by_ : String)
    (hstate : (get_state env locks chapterNum).state = ChapterState.canonLocked)
    (hlen : 10 ≤ reason.length) :
    unlock env locks unlockLog chapterNum reason by_ =
      (unlockLog ++
        [{ chapter := chapterNum, unlockedAt := env.now, unlockedBy := by_,
           reason := reason,
           previousLockDate := (get_state env locks chapterNum).lockedAt }],
       Except.error (LockError.canonLockedUseUnlock chapterNum)) := by
  have hshort : ¬(reason = "" ∨ reason.length < 10) := by
    rintro (rfl | hr)
    · exact absurd hlen (by decide)
    · omega
  simp [unlock, set_state, hstate, hshort, validTransitions]

/-! ## Claims -/

/-- Claim C1 (code_bug evidence): `ChapterLocker.unlock` can never succeed.
For every chapter currently CANON_LOCKED and every reason of length at
least 10, the call appends to the durable unlock log and then the internal
`set_state(..., REVISED)` raises, because the transition table gives
CANON_LOCKED no outbound transitions.  The claim (and the code's own
docstring, and spec scenario 2) says the call returns a REVISED record. -/
theorem unlock_never_succeeds_from_canon_locked
    (env : LockerEnv) (locks : Locks) (unlockLog : List UnlockLogEntry)
    (chapterNum : Nat) (reason by_ : String)
    (hstate : (get_state env locks chapterNum).state = ChapterState.canonLocked)
    (hlen : 10 ≤ reason.length) :
    (unlock env locks unlockLog chapterNum reason by_).2 =
      Except.error (LockError.canonLockedUseUnlock chapterNum) := by
  rw [unlock_locked_goodreason_eval env locks unlockLog chapterNum reason by_ hstate hlen]

/-- Witness for C1's theorem at chapter 5, reason "fixing typo now". -/
theorem unlock_never_succeeds_from_canon_locked_witness :
    (unlock { now := "T1", fileModified := fun _ => none, fileWords := fun _ => 0 }
        [(5, { chapterNum := 5, state := ChapterState.canonLocked,
               lockedAt := some "T0", lockedBy := some "author",
               lockReason := some "Canon finalized", lastModified := none,
               wordCount := 120, revisionCount := 2 })]
        [] 5 "fixing typo now" "author").2 =
      Except.error (LockError.canonLockedUseUnlock 5) :=
  unlock_never_succeeds_from_canon_locked
    { now := "T1", fileModified := fun _ => none, fileWords := fun _ => 0 }
    [(5, { chapterNum := 5, state := ChapterState.canonLocked,
           lockedAt := some "T0", lockedBy := some "author",
           lockReason := some "Canon finalized", lastModified := none,
           wordCount := 120, revisionCount := 2 })]
    [] 5 "fixing typo now" "author" (by rfl) (by decide)

/-- Claim C2, counterexample to the claim as stated: the claim cites both
`ChapterLocker.set_state` and `CanonManager.set_chapter_state`, but the
latter performs no transition validation, so a state change out of
PUBLISHED succeeds there. -/
theorem published_mutable_via_set_chapter_state :
    set_chapter_state "T1"
        [("ch1", { name := "ch1", state := "published", lastModified := "T0",
                   lockReason := some "done", unlockHistory := [] })]
        "ch1" ChapterState.canonLocked none =
      Except.ok
        ([("ch1", { name := "ch1", state := "canon_locked", lastModified := "T1",
                    lockReason := none, unlockHistory := [] })],
         { name := "ch1", state := "canon_locked", lastModified := "T1",
           lockReason := none, unlockHistory := [] }) := by
  rfl

/-- Claim C2 (amended): through `ChapterLocker.set_state`, PUBLISHED has no
outbound transition: every call fails, for every target state and reason. -/
theorem published_terminal_in_chapter_locker
    (env : LockerEnv) (locks : Locks) (chapterNum : Nat)
    (newState : ChapterState) (reason by_ : String)
    (hstate : (get_state env locks chapterNum).state = ChapterState.published) :
    set_state env locks chapterNum newState reason by_ =
      Except.error (LockError.publishedImmutable chapterNum) := by
  simp [set_state, hstate, validTransitions]

/-- Witness for C2's amended theorem at chapter 3, target DRAFT. -/
theorem published_terminal_in_chapter_locker_witness :
    set_state { now := "T1", fileModified := fun _ => none, fileWords := fun _ => 0 }
        [(3, { chapterNum := 3, state := ChapterState.published,
               lockedAt := some "T0", lockedBy := some "author",
               lockReason := some "final", lastModified := none,
               wordCount := 900, revisionCount := 4 })]
        3 ChapterState.draft "roll back the ending" "author" =
      Except.error (LockError.publishedImmutable 3) :=
  published_terminal_in_chapter_locker
    { now := "T1", fileModified := fun _ => none, fileWords := fun _ => 0 }
    [(3, { chapterNum := 3, state := ChapterState.published,
           lockedAt := some "T0", lockedBy := some "author",
           lockReason := some "final", lastModified := none,
           wordCount := 900, revisionCount := 4 })]
    3 ChapterState.draft "roll back the ending" "author" (by rfl)

/-- Claim C8: `ChapterLocker.unlock` raises its not-locked precondition
error whenever the chapter is in any state other than CANON_LOCKED, and
raises its short-reason validation error whenever the chapter is
CANON_LOCKED and the reason has fewer than 10 characters (in particular
when it is empty). -/
theorem unlock_error_conditions
    (env : LockerEnv) (locks : Locks) (unlockLog : List UnlockLogEntry)
    (chapterNum : Nat) (reason by_ : String) :
    ((get_state env locks chapterNum).state ≠ ChapterState.canonLocked →
        (unlock env locks unlockLog chapterNum reason by_).2 =
          Except.error
            (LockError.notLocked chapterNum (get_state env locks chapterNum).state)) ∧
      ((get_state env locks chapterNum).state = ChapterState.canonLocked →
        reason.length < 10 →
        (unlock env locks unlockLog chapterNum reason by_).2 =
          Except.error LockError.shortReason) := by
  constructor
  · intro hne
    simp [unlock, hne]
  · intro hstate hshort
    simp [unlock, hstate, hshort]

/-- Witness for C8's theorem: a DRAFT chapter (precondition error) and a
CANON_LOCKED chapter with a 4-character reason (validation error). -/
theorem unlock_error_conditions_witness :
    (unlock { now := "T1", fileModified := fun _ => none, fileWords := fun _ => 0 }
        [] [] 1 "long enough reason" "author").2 =
      Except.error (LockError.notLocked 1 ChapterState.draft) ∧
    (unlock { now := "T1", fileModified := fun _ => none, fileWords := fun _ => 0 }
        [(5, { chapterNum := 5, state := ChapterState.canonLocked,
               lockedAt := some "T0", lockedBy := some "author",
               lockReason := some "Canon finalized", lastModified := none,
               wordCount := 120, revisionCount := 2 })]
        [] 5 "typo" "author").2 =
      Except.error LockError.shortReason :=
  ⟨(unlock_error_conditions
      { now := "T1", fileModified := fun _ => none, fileWords := fun _ => 0 }
      [] [] 1 "long enough reason" "author").1 (by decide),
   (unlock_error_conditions
      { now := "T1", fileModified := fun _ => none, fileWords := fun _ => 0 }
      [(5, { chapterNum := 5, state := ChapterState.canonLocked,
             lockedAt := some "T0", lockedBy := some "author",
             lockReason := some "Canon finalized", lastModified := none,
             wordCount := 120, revisionCount := 2 })]
      [] 5 "typo" "author").2 (by rfl) (by decide)⟩

/-- Claim C9: on a CANON_LOCKED chapter with a reason of at least 10
characters, `unlock` appends its entry to the durable unlock log before
attempting the state transition, so the log has grown by exactly one entry
even though the call ends in an error. -/
theorem unlock_log_grows_even_on_error
    (env : LockerEnv) (locks : Locks) (unlockLog : List UnlockLogEntry)
    (chapterNum : Nat) (reason by_ : String)
    (hstate : (get_state env locks chapterNum).state = ChapterState.canonLocked)
    (hlen : 10 ≤ reason.length) :
    (unlock env locks unlockLog chapterNum reason by_).1 =
      unlockLog ++
        [{ chapter := chapterNum, unlockedAt := env.now, unlockedBy := by_,
           reason := reason,
           previousLockDate := (get_state env locks chapterNum).lockedAt }] ∧
      ∃ e, (unlock env locks unlockLog chapterNum reason by_).2 = Except.error e := by
  rw [unlock_locked_goodreason_eval env locks unlockLog chapterNum reason by_ hstate hlen]
  exact ⟨rfl, LockError.canonLockedUseUnlock chapterNum, rfl⟩

/-- Witness for C9's theorem at chapter 5, reason "fixing typo now". -/
theorem unlock_log_grows_even_on_error_witness :
    (unlock { now := "T1", fileModified := fun _ => none, fileWords := fun _ => 0 }
        [(5, { chapterNum := 5, state := ChapterState.canonLocked,
               lockedAt := some "T0", lockedBy := some "author",
               lockReason := some "Canon finalized", lastModified := none,
               wordCount := 120, revisionCount := 2 })]
        [] 5 "fixing typo now" "author").1 =
      [{ chapter := 5, unlockedAt := "T1", unlockedBy := "author",
         reason := "fixing typo now", previousLockDate := some "T0" }] ∧
      ∃ e, (unlock { now := "T1", fileModified := fun _ => none, fileWords := fun _ => 0 }
          [(5, { chapterNum := 5, state := ChapterState.canonLocked,
                 lockedAt := some "T0", lockedBy := some "author",
                 lockReason := some "Canon finalized", lastModified := none,
                 wordCount := 120, revisionCount := 2 })]
          [] 5 "fixing typo now" "author").2 = Except.error e :=
  unlock_log_grows_even_on_error
    { now := "T1", fileModified := fun _ => none, fileWords := fun _ => 0 }
    [(5, { chapterNum := 5, state := ChapterState.canonLocked,
           lockedAt := some "T0", lockedBy := some "author",
           lockReason := some "Canon finalized", lastModified := none,
           wordCount := 120, revisionCount := 2 })]
    [] 5 "fixing typo now" "author" (by rfl) (by decide)

/-- Claim C4, counterexample to the claim as stated: after
`add_fact("tommy_age", "19", "Chapter 1")` on an otherwise empty store,
`validate_against_canon("Tommy, who was 17, walked in.")` returns no
findings at all — the normalized key "tommy age" is not a substring of the
lower-cased text (a comma follows "tommy"), so the heuristic never fires. -/
theorem tommy_scenario_yields_no_findings :
    validate_against_canon
        (add_fact "T0" default_canon "tommy_age" "19" "Chapter 1" "facts").1
        "Tommy, who was 17, walked in." = [] := by
  decide

/-- Claim C4 (amended): on the spec's text the scenario yields zero
findings, because the normalized key "tommy age" does not occur in the
text; on a text that does contain the normalized key, such as
"Tommy age was 17, he walked in.", the same store yields exactly one
`potential_inconsistency` finding whose canon value is "19". -/
theorem tommy_scenario_amended :
    validate_against_canon
        (add_fact "T0" default_canon "tommy_age" "19" "Chapter 1" "facts").1
        "Tommy, who was 17, walked in." = [] ∧
      validate_against_canon
          (add_fact "T0" default_canon "tommy_age" "19" "Chapter 1" "facts").1
          "Tommy age was 17, he walked in." =
        [{ ftype := "potential_inconsistency", category := "facts",
           factKey := "tommy_age", canonValue := "19", severity := "warning",
           message := "Canon fact 'tommy_age' referenced but value '19' not found" }] := by
  constructor
  · decide
  · decide

/-- Claim C6: `add_fact` bumps exactly the patch component and
`update_fact`, when it succeeds, bumps exactly the minor component and
resets patch to 0; both strictly increase the version in the
major-minor-patch ordering, so the version never decreases. -/
theorem version_bump_shape :
    (∀ (now : String) (c : Canon) (factKey factValue sourceChapter category : String),
        (add_fact now c factKey factValue sourceChapter category).1.version =
          { major := c.version.major, minor := c.version.minor,
            patch := c.version.patch + 1 } ∧
          Version.ltV c.version
            (add_fact now c factKey factValue sourceChapter category).1.version) ∧
      ∀ (now : String) (c : Canon) (factKey newValue reason : String)
        (aff : List String) (category : String) (c' : Canon) (f' : Fact),
        update_fact now c factKey newValue reason aff category = Except.ok (c', f') →
        c'.version =
            { major := c.version.major, minor := c.version.minor + 1, patch := 0 } ∧
          Version.ltV c.version c'.version := by
  constructor
  · intro now c factKey factValue sourceChapter category
    refine ⟨rfl, Or.inr ⟨rfl, Or.inr ⟨rfl, Nat.lt_succ_self _⟩⟩⟩
  · intro now c factKey newValue reason aff category c' f' h
    have hv : c'.version =
        { major := c.version.major, minor := c.version.minor + 1, patch := 0 } := by
      cases hcat : dictGet c.cats category with
      | none =>
          have heval : update_fact now c factKey newValue reason aff category =
              Except.error ("Fact not found: " ++ category ++ "/" ++ factKey) := by
            unfold update_fact
            rw [hcat]
          rw [heval] at h
          exact absurd h (by simp)
      | some facts =>
          cases hkey : dictGet facts factKey with
          | none =>
              have heval : update_fact now c factKey newValue reason aff category =
                  Except.error ("Fact not found: " ++ category ++ "/" ++ factKey) := by
                unfold update_fact
                rw [hcat]
                dsimp only
                rw [hkey]
              rw [heval] at h
              exact absurd h (by simp)
          | some fact =>
              have heval : update_fact now c factKey newValue reason aff category =
                  Except.ok
                    ({ version := bump_version c.version "minor"
                       cats :=
                         dictSet c.cats category
                           (dictSet facts factKey
                             { value := newValue, sourceChapter := fact.sourceChapter,
                               created := fact.created, updated := now,
                               history :=
                                 fact.history ++
                                   [{ oldValue := fact.value, changed := now,
                                      reason := reason }] }) },
                     { value := newValue, sourceChapter := fact.sourceChapter,
                       created := fact.created, updated := now,
                       history :=
                         fact.history ++
                           [{ oldValue := fact.value, changed := now, reason := reason }] }) := by
                unfold update_fact
                rw [hcat]
                dsimp only
                rw [hkey]
              rw [heval] at h
              simp only [Except.ok.injEq, Prod.mk.injEq] at h
              rw [← h.1]
              rfl
    refine ⟨hv, ?_⟩
    rw [hv]
    exact Or.inr ⟨rfl, Or.inl (Nat.lt_succ_self _)⟩

/-- Witness for C6's theorem: both bump shapes at concrete stores, the
update hypothesis discharged by computation. -/
theorem version_bump_shape_witness :
    ((add_fact "T1" default_canon "k" "v" "Chapter 1" "facts").1.version =
        { major := 1, minor := 0, patch := 1 } ∧
      Version.ltV default_canon.version
        (add_fact "T1" default_canon "k" "v" "Chapter 1" "facts").1.version) ∧
      c6res.1.version = { major := 1, minor := 1, patch := 0 } ∧
      Version.ltV c6base.version c6res.1.version :=
  ⟨version_bump_shape.1 "T1" default_canon "k" "v" "Chapter 1" "facts",
   version_bump_shape.2 "T1" c6base "k" "v2" "better sourcing" [] "facts"
     c6res.1 c6res.2 (by rfl)⟩

/-- Claim C7: a successful `update_fact` on an existing fact appends
exactly one history entry whose `old_value` is the previous value, and the
stored fact's value becomes the new value. -/
theorem update_fact_appends_history
    (now : String) (c : Canon) (factKey newValue reason : String)
    (aff : List String) (category : String) (fact0 : Fact)
    (hlook : lookupFact c category factKey = some fact0) :
    ∃ c' f',
      update_fact now c factKey newValue reason aff category = Except.ok (c', f') ∧
        f'.history =
            fact0.history ++ [{ oldValue := fact0.value, changed := now, reason := reason }] ∧
        f'.history.length = fact0.history.length + 1 ∧
        f'.history.getLast? =
            some { oldValue := fact0.value, changed := now, reason := reason } ∧
        f'.value = newValue ∧
        lookupFact c' category factKey = some f' := by
  rw [lookupFact_eq_bind] at hlook
  obtain ⟨facts, hcat, hkey⟩ := Option.bind_eq_some.mp hlook
  have heval : update_fact now c factKey newValue reason aff category =
      Except.ok
        ({ version := bump_version c.version "minor"
           cats :=
             dictSet c.cats category
               (dictSet facts factKey
                 { value := newValue, sourceChapter := fact0.sourceChapter,
                   created := fact0.created, updated := now,
                   history :=
                     fact0.history ++
                       [{ oldValue := fact0.value, changed := now, reason := reason }] }) },
         { value := newValue, sourceChapter := fact0.sourceChapter,
           created := fact0.created, updated := now,
           history :=
             fact0.history ++
               [{ oldValue := fact0.value, changed := now, reason := reason }] }) := by
    unfold update_fact
    rw [hcat]
    dsimp only
    rw [hkey]
  refine ⟨_, _, heval, rfl, by simp, List.getLast?_concat _, rfl, ?_⟩
  rw [lookupFact_eq_bind]
  show (dictGet (dictSet c.cats category _) category).bind _ = _
  rw [dictGet_dictSet_self]
  exact dictGet_dictSet_self facts factKey _

/-- Witness for C7's theorem: updating the single fact of a concrete store. -/
theorem update_fact_appends_history_witness :
    ∃ c' f',
      update_fact "T1" (add_fact "T0" default_canon "tommy_age" "19" "Chapter 1" "facts").1
          "tommy_age" "20" "timeline shifted a year" ["Chapter 1"] "facts" =
        Except.ok (c', f') ∧
        f'.history = [] ++ [{ oldValue := "19", changed := "T1", reason := "timeline shifted a year" }] ∧
        f'.history.length = ([] : List HistEntry).length + 1 ∧
        f'.history.getLast? =
            some { oldValue := "19", changed := "T1", reason := "timeline shifted a year" } ∧
        f'.value = "20" ∧
        lookupFact c' "facts" "tommy_age" = some f' :=
  update_fact_appends_history "T1"
    (add_fact "T0" default_canon "tommy_age" "19" "Chapter 1" "facts").1
    "tommy_age" "20" "timeline shifted a year" ["Chapter 1"] "facts"
    { value := "19", sourceChapter := "Chapter 1", created := "T0", updated := "T0",
      history := [] }
    (by rfl)

/-- Claim C10: `add_fact` on a key that already holds a fact succeeds and
silently replaces it with a fresh record whose history is empty (the prior
value and history are discarded), while the version is still bumped only at
patch level. -/
theorem add_fact_overwrites_existing
    (now : String) (c : Canon) (factKey factValue sourceChapter category : String)
    (fact0 : Fact) (hlook : lookupFact c category factKey = some fact0) :
    (add_fact now c factKey factValue sourceChapter category).2.history = [] ∧
      (add_fact now c factKey factValue sourceChapter category).2.value = factValue ∧
      lookupFact (add_fact now c factKey factValue sourceChapter category).1
          category factKey =
        some (add_fact now c factKey factValue sourceChapter category).2 ∧
      (add_fact now c factKey factValue sourceChapter category).1.version =
        { major := c.version.major, minor := c.version.minor,
          patch := c.version.patch + 1 } := by
  rw [lookupFact_eq_bind] at hlook
  obtain ⟨facts, hcat, hkey⟩ := Option.bind_eq_some.mp hlook
  have heval : add_fact now c factKey factValue sourceChapter category =
      ({ version := bump_version c.version "patch"
         cats :=
           dictSet c.cats category
             (dictSet facts factKey
               { value := factValue, sourceChapter := sourceChapter,
                 created := now, updated := now, history := [] }) },
       { value := factValue, sourceChapter := sourceChapter,
         created := now, updated := now, history := [] }) := by
    simp only [add_fact, hcat, Option.isNone_some, Bool.false_eq_true, if_false,
      Option.getD_some]
  rw [heval]
  refine ⟨rfl, rfl, ?_, rfl⟩
  rw [lookupFact_eq_bind]
  show (dictGet (dictSet c.cats category _) category).bind _ = _
  rw [dictGet_dictSet_self]
  exact dictGet_dictSet_self facts factKey _

/-- Witness for C10's theorem: re-adding a key that already holds a fact
with non-empty history. -/
theorem add_fact_overwrites_existing_witness :
    (add_fact "T1" c10base "tommy_age" "21" "Chapter 3" "facts").2.history = [] ∧
      (add_fact "T1" c10base "tommy_age" "21" "Chapter 3" "facts").2.value = "21" ∧
      lookupFact (add_fact "T1" c10base "tommy_age" "21" "Chapter 3" "facts").1
          "facts" "tommy_age" =
        some (add_fact "T1" c10base "tommy_age" "21" "Chapter 3" "facts").2 ∧
      (add_fact "T1" c10base "tommy_age" "21" "Chapter 3" "facts").1.version =
        { major := 1, minor := 1, patch := 1 } :=
  add_fact_overwrites_existing "T1" c10base "tommy_age" "21" "Chapter 3" "facts"
    { value := "20", sourceChapter := "Chapter 1", created := "T0", updated := "T0x",
      history := [{ oldValue := "19", changed := "T0x", reason := "timeline shifted" }] }
    (by rfl)

/-- Claim C3 (amended): `ResearchIngestService.approve_and_place` refuses
any document whose status is not `classified` or `distilled` — in
particular one still in `intake` with `research_class` unclassified. -/
theorem approve_requires_classified
    (env : IngestEnv) (registry : Registry) (docId approvedBy : String)
    (promotionTarget : Option String) (doc : ResearchDocument)
    (hdoc : dictGet registry docId = some doc)
    (hstatus1 : doc.status ≠ "classified") (hstatus2 : doc.status ≠ "distilled") :
    approve_and_place env registry docId approvedBy promotionTarget =
      Except.error IngestError.mustClassify := by
  unfold approve_and_place
  rw [hdoc]
  dsimp only
  rw [if_pos ⟨hstatus1, hstatus2⟩]

/-- Witness for C3's amended theorem: a freshly-ingested document (status
"intake", class "unclassified"). -/
theorem approve_requires_classified_witness :
    approve_and_place
        { now := "T1", baseDir := "/app", fileExists := fun _ => false }
        [("doc_a_20240101", ingestIntakeDoc)] "doc_a_20240101" "author" none =
      Except.error IngestError.mustClassify :=
  approve_requires_classified
    { now := "T1", baseDir := "/app", fileExists := fun _ => false }
    [("doc_a_20240101", ingestIntakeDoc)] "doc_a_20240101" "author" none
    ingestIntakeDoc (by rfl) (by decide) (by decide)

/-- Claim C3, counterexample to the claim as stated: the claim also covers
`ResearchDigestor.promote`, which performs no status check, so a document
whose status is still "unprocessed" (never classified) is promoted
directly. -/
theorem promote_succeeds_on_unprocessed :
    promote "T1" "/app"
        [("d1", { id := "d1", originalName := "a.txt",
                  storedPath := "/app/research/raw_sources/d1_a.txt", title := "a",
                  intent := "historical_context", status := "unprocessed",
                  researchClass := none, notes := "", ingested := "T0",
                  classified := none, distilled := none, promoted := none,
                  finalPath := none })]
        "d1" ResearchClass.context =
      Except.ok
        ([("d1", { id := "d1", originalName := "a.txt",
                   storedPath := "/app/research/raw_sources/d1_a.txt", title := "a",
                   intent := "historical_context", status := "promoted",
                   researchClass := some "context", notes := "", ingested := "T0",
                   classified := none, distilled := none, promoted := some "T1",
                   finalPath := some "/app/research/digests/d1_a.txt" })],
         { id := "d1", originalName := "a.txt",
           storedPath := "/app/research/raw_sources/d1_a.txt", title := "a",
           intent := "historical_context", status := "promoted",
           researchClass := some "context", notes := "", ingested := "T0",
           classified := none, distilled := none, promoted := some "T1",
           finalPath := some "/app/research/digests/d1_a.txt" }) := by
  rfl

/-- Claim C5: for the style-check context the bundle's canon, context and
artifacts sections are empty and `sources_loaded` is at most `["craft"]`,
for every file-system state and token budget. -/
theorem style_check_loads_craft_only (env : LoaderEnv) (maxTokens : Nat) :
    (load_for_context env LoadingContext.styleCheck maxTokens).canon = "" ∧
      (load_for_context env LoadingContext.styleCheck maxTokens).context = "" ∧
      (load_for_context env LoadingContext.styleCheck maxTokens).artifacts = "" ∧
      ((load_for_context env LoadingContext.styleCheck maxTokens).sourcesLoaded = [] ∨
        (load_for_context env LoadingContext.styleCheck maxTokens).sourcesLoaded =
          ["craft"]) := by
  have hfit : ∀ r : Nat, truncFit "" r = ("", r) := by
    intro r
    unfold truncFit
    have h0 : estimateTokens "" = 0 := rfl
    rw [h0, if_pos (Nat.zero_le r), Nat.sub_zero]
  have hgate : ∀ r : Nat, truncGate "" r = ("", r) := by
    intro r
    unfold truncGate
    split
    · exact hfit r
    · rfl
  by_cases hcraft : env.loadCraft = "" <;>
    simp [load_for_context, contextRules, hcraft, hfit, hgate, pyTake_empty] <;>
    split <;>
    simp [hfit, hgate, pyTake_empty]

end NovelAssistant
